import Mathlib

/-!
Verification of the libevent echo server in `src/main.c`.

The server is a single-threaded reactor: a listener accepting TCP
connections on port 9995, a per-connection read callback that drains the
inbound evbuffer into the outbound evbuffer, an event callback that frees
the connection, and a SIGINT handler that schedules a delayed loop exit.

We shallowly embed the C code: evbuffers become lists of bytes (front of
the list is the oldest byte), the reactor state becomes an explicit
record, and each callback of `main.c` becomes a Lean function on that
state.  The libevent primitives the code calls (`evbuffer_remove_buffer`,
`event_base_dispatch`, `event_base_loopexit`, ...) are modelled after
their documented contracts, which the specification's section 6 restates
as the transport-collaborator contract.
-/

namespace EchoServer

/-- A byte; only identity and order of bytes matter for the echo relay. -/
abbrev Byte := Nat

/-- Model of `evbuffer_get_length`: the number of bytes stored. -/
def evbuffer_get_length (b : List Byte) : Nat := b.length

/-- Model of `evbuffer_remove_buffer src dst n`: moves up to `n` bytes from
the front of `src` to the end of `dst` and returns
`(new src, new dst, number of bytes moved)`. -/
def evbuffer_remove_buffer (src dst : List Byte) (n : Nat) :
    List Byte × List Byte × Nat :=
  (src.drop n, dst ++ src.take n, min n src.length)

/-- The `while (1)` drain loop of `conn_readcb` in `main.c`:
each pass snapshots `inputs = evbuffer_get_length(evbuf_in)`, moves that
many bytes into `evbuf_out` with `evbuffer_remove_buffer`, and breaks as
soon as `inputs <= writes`.  Returns the final `(evbuf_in, evbuf_out)`. -/
def conn_readcb_loop (evbuf_in evbuf_out : List Byte) : List Byte × List Byte :=
  let inputs := evbuffer_get_length evbuf_in
  let step := evbuffer_remove_buffer evbuf_in evbuf_out inputs
  if h : inputs ≤ step.2.2 then (step.1, step.2.1)
  else conn_readcb_loop step.1 step.2.1
termination_by evbuf_in.length
decreasing_by
  simp only [inputs, step, evbuffer_remove_buffer, evbuffer_get_length] at h
  simp at h

/-- Helper: on every buffer state the drain loop empties the inbound
buffer and appends its bytes, unchanged and in order, to the outbound
buffer. -/
theorem conn_readcb_loop_eq (evbuf_in evbuf_out : List Byte) :
    conn_readcb_loop evbuf_in evbuf_out = ([], evbuf_out ++ evbuf_in) := by
  unfold conn_readcb_loop
  simp [evbuffer_remove_buffer, evbuffer_get_length]

/-- Fuel-indexed version of the same drain loop, used to express
termination: `none` means the loop was still running when the fuel ran
out, `some` is the loop's result. -/
def conn_readcb_loopF : Nat → List Byte → List Byte →
    Option (List Byte × List Byte)
  | 0, _, _ => none
  | fuel + 1, evbuf_in, evbuf_out =>
    let inputs := evbuffer_get_length evbuf_in
    let step := evbuffer_remove_buffer evbuf_in evbuf_out inputs
    if inputs ≤ step.2.2 then some (step.1, step.2.1)
    else conn_readcb_loopF fuel step.1 step.2.1

/-- Iterating the drain step a number of times on a buffer pair. -/
def iterate_readcb : Nat → List Byte × List Byte → List Byte × List Byte
  | 0, s => s
  | n + 1, s => iterate_readcb n (conn_readcb_loop s.1 s.2)

/-- C1: for every byte sequence in the inbound buffer when `conn_readcb`
runs, after the drain loop those bytes have been appended to the outbound
buffer unmodified and in arrival order (and the inbound buffer is empty),
so the connection echoes back exactly what was received. -/
theorem readcb_echoes_in_order (evbuf_in evbuf_out : List Byte) :
    conn_readcb_loop evbuf_in evbuf_out = ([], evbuf_out ++ evbuf_in) :=
  conn_readcb_loop_eq evbuf_in evbuf_out

/-- C2: the drain loop of `conn_readcb` terminates on every inbound
buffer state — it completes within a single pass (fuel 1 suffices) — and
the pass, bounded by the length snapshot `inputs` taken before the move,
moves exactly the number of bytes that were available. -/
theorem readcb_loop_terminates (evbuf_in evbuf_out : List Byte) :
    conn_readcb_loopF 1 evbuf_in evbuf_out = some ([], evbuf_out ++ evbuf_in) ∧
    (evbuffer_remove_buffer evbuf_in evbuf_out
        (evbuffer_get_length evbuf_in)).2.2 = evbuffer_get_length evbuf_in := by
  constructor
  · simp [conn_readcb_loopF, evbuffer_remove_buffer, evbuffer_get_length]
  · simp [evbuffer_remove_buffer, evbuffer_get_length]

/-- C7: running the drain step on an empty inbound buffer moves zero
bytes and leaves both buffers unchanged, and repeating it any number of
times still changes nothing. -/
theorem readcb_empty_noop (evbuf_out : List Byte) (n : Nat) :
    conn_readcb_loop [] evbuf_out = ([], evbuf_out) ∧
    iterate_readcb n ([], evbuf_out) = ([], evbuf_out) := by
  refine ⟨by simpa using conn_readcb_loop_eq [] evbuf_out, ?_⟩
  induction n with
  | zero => rfl
  | succ k ih =>
    have h := conn_readcb_loop_eq [] evbuf_out
    simp [iterate_readcb, h, ih]

/-! ## Event bitmask constants (from `event2/bufferevent.h`) -/

def BEV_EVENT_READING : Nat := 0x01

def BEV_EVENT_WRITING : Nat := 0x02

def BEV_EVENT_EOF : Nat := 0x10

def BEV_EVENT_ERROR : Nat := 0x20

def BEV_EVENT_TIMEOUT : Nat := 0x40

def BEV_EVENT_CONNECTED : Nat := 0x80

def EV_READ : Nat := 0x02

def EV_WRITE : Nat := 0x04

/-! ## Connections and the reactor state -/

/-- A bufferevent created with `BEV_OPT_CLOSE_ON_FREE`: the accepted
socket, the paired inbound/outbound evbuffers, which callbacks
`bufferevent_setcb` registered, and which directions
`bufferevent_enable` enabled. -/
structure Connection where
  fd : Nat
  inBuf : List Byte
  outBuf : List Byte
  cbRead : Bool
  cbWrite : Bool
  cbEvent : Bool
  enabledRead : Bool
  enabledWrite : Bool
deriving DecidableEq

/-- Model of `bufferevent_socket_new base fd BEV_OPT_CLOSE_ON_FREE`:
a fresh bufferevent wrapping `fd`, no callbacks set, nothing enabled. -/
def bufferevent_socket_new (fd : Nat) : Connection :=
  { fd := fd, inBuf := [], outBuf := [], cbRead := false, cbWrite := false,
    cbEvent := false, enabledRead := false, enabledWrite := false }

/-- Model of `bufferevent_setcb bev conn_readcb conn_writecb conn_eventcb
NULL`: registers the read, write and event callbacks. -/
def bufferevent_setcb (c : Connection) : Connection :=
  { c with cbRead := true, cbWrite := true, cbEvent := true }

/-- Model of `bufferevent_enable bev (EV_WRITE ||| EV_READ)`. -/
def bufferevent_enable (c : Connection) (what : Nat) : Connection :=
  { c with
    enabledRead := c.enabledRead || decide (what &&& EV_READ ≠ 0),
    enabledWrite := c.enabledWrite || decide (what &&& EV_WRITE ≠ 0) }

/-- The reactor state of the whole process: current time (in the spec's
time units, i.e. seconds), the deadline scheduled by
`event_base_loopexit` if any, the flag set by `event_base_loopbreak`,
whether the listener is still installed, the live connections keyed by
their socket fd, and the lines printed so far. -/
structure LoopState where
  now : Nat
  exitDeadline : Option Nat
  loopBreak : Bool
  listenerAlive : Bool
  conns : List (Nat × Connection)
  log : List String
deriving DecidableEq

/-- Looking a connection up by its key in the reactor state. -/
def connLookup (cid : Nat) : List (Nat × Connection) → Option Connection
  | [] => none
  | (k, c) :: rest => if k = cid then some c else connLookup cid rest

/-- Model of `bufferevent_free` under `BEV_OPT_CLOSE_ON_FREE`: the
connection record — socket and both buffers — is dropped as one unit. -/
def connFree (cid : Nat) : List (Nat × Connection) → List (Nat × Connection)
  | [] => []
  | (k, c) :: rest =>
    if k = cid then connFree cid rest else (k, c) :: connFree cid rest

/-- Replacing the state of one connection, keyed by `cid`. -/
def connUpdate (cid : Nat) (c : Connection) :
    List (Nat × Connection) → List (Nat × Connection)
  | [] => []
  | (k, c0) :: rest =>
    if k = cid then (k, c) :: connUpdate cid c rest
    else (k, c0) :: connUpdate cid c rest

/-! ## The callbacks of `main.c` as state transformers -/

/-- `listener_cb` from `main.c`: on a newly accepted socket `fd`, build a
bufferevent (`bev_ok` tells whether `bufferevent_socket_new` succeeded),
and on failure print the diagnostic and call `event_base_loopbreak`;
on success register the three callbacks and enable writing and reading. -/
def listener_cb (bev_ok : Bool) (fd : Nat) (st : LoopState) : LoopState :=
  if bev_ok then
    let bev := bufferevent_socket_new fd
    let bev := bufferevent_setcb bev
    let bev := bufferevent_enable bev (EV_WRITE ||| EV_READ)
    { st with conns := (fd, bev) :: st.conns }
  else
    { st with log := st.log ++ ["Error constructing bufferevent!"],
              loopBreak := true }

/-- `conn_writecb` from `main.c`: when the outbound buffer has drained to
length zero, print the completed-write line; otherwise do nothing. -/
def conn_writecb (cid : Nat) (st : LoopState) : LoopState :=
  match connLookup cid st.conns with
  | none => st
  | some c =>
    if evbuffer_get_length c.outBuf = 0 then
      { st with log := st.log ++ ["Answered"] }
    else st

/-- `conn_readcb` from `main.c` acting on the reactor state: run the
drain loop on the connection's buffer pair, then print the read line. -/
def conn_readcb (cid : Nat) (st : LoopState) : LoopState :=
  match connLookup cid st.conns with
  | none => st
  | some c =>
    let r := conn_readcb_loop c.inBuf c.outBuf
    { st with
      conns := connUpdate cid { c with inBuf := r.1, outBuf := r.2 } st.conns,
      log := st.log ++ ["Received"] }

/-- The diagnostics `conn_eventcb` prints for an event bitmask, one line
per set flag, in the order of the source's `if` chain. -/
def conn_event_logs (events : Nat) : List String :=
  (if events &&& BEV_EVENT_READING ≠ 0
    then ["Error encountered while reading"] else []) ++
  (if events &&& BEV_EVENT_WRITING ≠ 0
    then ["Error encountered while writing"] else []) ++
  (if events &&& BEV_EVENT_EOF ≠ 0 then ["Eof reached."] else []) ++
  (if events &&& BEV_EVENT_ERROR ≠ 0
    then ["Unrecoverable error encountered"] else []) ++
  (if events &&& BEV_EVENT_TIMEOUT ≠ 0
    then ["User-specified timeout reached."] else []) ++
  (if events &&& BEV_EVENT_CONNECTED ≠ 0
    then ["Connect operation finished."] else [])

/-- `conn_eventcb` from `main.c`: print a diagnostic per set flag, then
unconditionally `bufferevent_free` the connection. -/
def conn_eventcb (cid : Nat) (events : Nat) (st : LoopState) : LoopState :=
  { st with log := st.log ++ conn_event_logs events,
            conns := connFree cid st.conns }

/-- `signal_cb` from `main.c`: print the shutdown line, then
`event_base_loopexit(base, delay)` with `delay = { 2, 0 }`: the loop is
scheduled to exit 2 time units from now. -/
def signal_cb (st : LoopState) : LoopState :=
  { st with
    log := st.log ++ ["Caught an interrupt signal; exiting cleanly in two seconds."],
    exitDeadline := some (st.now + 2) }

/-! ## The event loop and `main` -/

/-- One external stimulus delivered by the event loop: a socket accepted
by the listener (with the outcome of the bufferevent construction), bytes
arriving on a connection (the loop appends them to the inbound buffer and
invokes the read callback), the write-side becoming ready, a transport
event bitmask for a connection, a SIGINT delivery, or one time unit
elapsing. -/
inductive LoopEvent where
  | newConn (fd : Nat) (bev_ok : Bool)
  | readable (cid : Nat) (bytes : List Byte)
  | writable (cid : Nat)
  | connEvent (cid : Nat) (events : Nat)
  | interrupt
  | tick
deriving DecidableEq

/-- Dispatching one stimulus to the callback `main.c` registered for it. -/
def loopStep (st : LoopState) : LoopEvent → LoopState
  | .newConn fd bev_ok => listener_cb bev_ok fd st
  | .readable cid bytes =>
    let st :=
      match connLookup cid st.conns with
      | none => st
      | some c =>
        { st with conns := connUpdate cid { c with inBuf := c.inBuf ++ bytes } st.conns }
    conn_readcb cid st
  | .writable cid => conn_writecb cid st
  | .connEvent cid events => conn_eventcb cid events st
  | .interrupt => signal_cb st
  | .tick => { st with now := st.now + 1 }

/-- Whether the loop must stop before handling the next stimulus: either
`event_base_loopbreak` was called, or an `event_base_loopexit` deadline
has been reached. -/
def loopStopRequested (st : LoopState) : Bool :=
  st.loopBreak ||
    (match st.exitDeadline with
     | some d => decide (d ≤ st.now)
     | none => false)

/-- Model of `event_base_dispatch`: handle stimuli in order until the
trace ends or a stop is requested; returns the final reactor state. -/
def dispatch : LoopState → List LoopEvent → LoopState
  | st, [] => st
  | st, e :: rest =>
    if loopStopRequested st then st else dispatch (loopStep st e) rest

/-- The outcomes of the fallible construction steps in `main`: whether
`event_base_new`, `evconnlistener_new_bind`, `evsignal_new` and
`event_add` succeed. -/
structure StartupEnv where
  baseOk : Bool
  listenerOk : Bool
  signalNewOk : Bool
  signalAddOk : Bool
deriving DecidableEq

/-- The fixed port from `main.c`. -/
def PORT : Nat := 9995

/-- The `sockaddr_in` `main` binds: zero-initialised, so the address is
`INADDR_ANY` (all local interfaces), with the port set to `PORT`. -/
structure SockAddrIn where
  family : Nat
  port : Nat
  addr : Nat
deriving DecidableEq

def AF_INET : Nat := 2

def sin : SockAddrIn := { family := AF_INET, port := PORT, addr := 0 }

/-- The listener options `main` passes to `evconnlistener_new_bind`. -/
structure ListenerOpts where
  reuseable : Bool
  closeOnFree : Bool
deriving DecidableEq

def listenerOpts : ListenerOpts := { reuseable := true, closeOnFree := true }

/-- The backlog argument of `evconnlistener_new_bind` in `main.c`: `-1`,
i.e. no explicit connection-count limit is requested. -/
def listenerBacklog : Int := -1

/-- The reactor state when `event_base_dispatch` starts. -/
def initialState : LoopState :=
  { now := 0, exitDeadline := none, loopBreak := false,
    listenerAlive := true, conns := [], log := [] }

/-- `main` from `main.c`: the three fallible setup steps each print a
diagnostic and return 1 on failure; otherwise the start line is printed,
the loop runs on the trace of external stimuli, and after it returns the
resources are freed, the completion line is printed and 0 is returned.
Result: `(exit code, every line printed)`. -/
def mainRun (env : StartupEnv) (trace : List LoopEvent) : Nat × List String :=
  if !env.baseOk then (1, ["Could not initialize libevent!"])
  else if !env.listenerOk then (1, ["Could not create a listener!"])
  else if !env.signalNewOk || !env.signalAddOk then
    (1, ["Could not create/add a signal event!"])
  else
    let final := dispatch initialState trace
    (0, "Start listening the port: 9995" :: (final.log ++ ["done"]))

/-- Number of times a line occurs in an output transcript. -/
def countLine (s : String) (l : List String) : Nat :=
  (l.filter (fun x => x = s)).length

/-! ## Helper lemmas -/

lemma connLookup_connFree_self (cid : Nat) (l : List (Nat × Connection)) :
    connLookup cid (connFree cid l) = none := by
  induction l with
  | nil => rfl
  | cons p rest ih =>
    obtain ⟨k, c⟩ := p
    by_cases hk : k = cid <;> simp [connFree, connLookup, hk, ih]

lemma connLookup_connFree_other (k cid : Nat) (hk : k ≠ cid)
    (l : List (Nat × Connection)) :
    connLookup k (connFree cid l) = connLookup k l := by
  induction l with
  | nil => rfl
  | cons p rest ih =>
    obtain ⟨j, c⟩ := p
    by_cases hj : j = cid
    · have hjk : j ≠ k := by omega
      simp [connFree, connLookup, hj, hjk, Ne.symm hk, ih]
    · by_cases hjk : j = k <;>
        simp [connFree, connLookup, hj, hjk, hk, Ne.symm hk, ih]

lemma countLine_append (s : String) (a b : List String) :
    countLine s (a ++ b) = countLine s a + countLine s b := by
  simp [countLine]

lemma countLine_done_event_logs (events : Nat) :
    countLine "done" (conn_event_logs events) = 0 := by
  unfold conn_event_logs
  split_ifs <;> decide

lemma countLine_done_err_bev :
    countLine "done" ["Error constructing bufferevent!"] = 0 := by decide

lemma countLine_done_answered : countLine "done" ["Answered"] = 0 := by decide

lemma countLine_done_received : countLine "done" ["Received"] = 0 := by decide

lemma countLine_done_caught :
    countLine "done"
      ["Caught an interrupt signal; exiting cleanly in two seconds."] = 0 := by
  decide

lemma listener_cb_done (ok : Bool) (fd : Nat) (st : LoopState) :
    countLine "done" (listener_cb ok fd st).log = countLine "done" st.log := by
  cases ok
  · show countLine "done" (st.log ++ ["Error constructing bufferevent!"]) = _
    simp [countLine_append, countLine_done_err_bev]
  · rfl

lemma conn_writecb_done (cid : Nat) (st : LoopState) :
    countLine "done" (conn_writecb cid st).log = countLine "done" st.log := by
  rcases hc : connLookup cid st.conns with _ | c
  · simp [conn_writecb, hc]
  · by_cases ho : evbuffer_get_length c.outBuf = 0 <;>
      simp [conn_writecb, hc, ho, countLine_append, countLine_done_answered]

lemma conn_readcb_done (cid : Nat) (st : LoopState) :
    countLine "done" (conn_readcb cid st).log = countLine "done" st.log := by
  rcases hc : connLookup cid st.conns with _ | c
  · simp [conn_readcb, hc]
  · simp [conn_readcb, hc, countLine_append, countLine_done_received]

lemma conn_eventcb_done (cid events : Nat) (st : LoopState) :
    countLine "done" (conn_eventcb cid events st).log =
      countLine "done" st.log := by
  show countLine "done" (st.log ++ conn_event_logs events) = _
  simp [countLine_append, countLine_done_event_logs]

lemma loopStep_done (st : LoopState) (e : LoopEvent) :
    countLine "done" (loopStep st e).log = countLine "done" st.log := by
  cases e with
  | newConn fd ok => exact listener_cb_done ok fd st
  | readable cid bytes =>
    show countLine "done" (conn_readcb cid _).log = _
    rw [conn_readcb_done]
    rcases hc : connLookup cid st.conns with _ | c <;> simp [hc]
  | writable cid => exact conn_writecb_done cid st
  | connEvent cid events => exact conn_eventcb_done cid events st
  | interrupt =>
    show countLine "done"
      (st.log ++ ["Caught an interrupt signal; exiting cleanly in two seconds."]) = _
    simp [countLine_append, countLine_done_caught]
  | tick => rfl

lemma dispatch_done (trace : List LoopEvent) (st : LoopState) :
    countLine "done" (dispatch st trace).log = countLine "done" st.log := by
  induction trace generalizing st with
  | nil => rfl
  | cons e rest ih =>
    by_cases h : loopStopRequested st = true
    · simp [dispatch, h]
    · simp only [dispatch, h, if_false, Bool.not_eq_true] at *
      simp [h, ih, loopStep_done]

/-! ## Claim theorems about the event and listener callbacks -/

/-- C3: whenever the event bitmask handed to `conn_eventcb` contains a
terminating condition (read-error, write-error, end-of-file or
unrecoverable error), no recovery is attempted: the connection is closed
— its record, holding the socket and both buffers, is dropped as one
unit — while every other connection, the listener, the loop-break flag
and any scheduled loop exit are untouched. -/
theorem eventcb_fatal_closes_connection (events cid : Nat) (st : LoopState)
    (h : events &&&
      (BEV_EVENT_READING ||| BEV_EVENT_WRITING |||
        BEV_EVENT_EOF ||| BEV_EVENT_ERROR) ≠ 0) :
    connLookup cid (conn_eventcb cid events st).conns = none ∧
    (∀ k, k ≠ cid →
      connLookup k (conn_eventcb cid events st).conns =
        connLookup k st.conns) ∧
    (conn_eventcb cid events st).listenerAlive = st.listenerAlive ∧
    (conn_eventcb cid events st).loopBreak = st.loopBreak ∧
    (conn_eventcb cid events st).exitDeadline = st.exitDeadline := by
  refine ⟨connLookup_connFree_self cid st.conns,
    fun k hk => connLookup_connFree_other k cid hk st.conns, rfl, rfl, rfl⟩

/-- Witness for C3 at the end-of-file bitmask on a state with two live
connections. -/
theorem eventcb_fatal_closes_connection_witness :
    BEV_EVENT_EOF &&&
      (BEV_EVENT_READING ||| BEV_EVENT_WRITING |||
        BEV_EVENT_EOF ||| BEV_EVENT_ERROR) ≠ 0 ∧
    connLookup 7 (conn_eventcb 7 BEV_EVENT_EOF
      ⟨0, none, false, true,
        [(7, bufferevent_socket_new 7), (8, bufferevent_socket_new 8)],
        []⟩).conns = none ∧
    connLookup 8 (conn_eventcb 7 BEV_EVENT_EOF
      ⟨0, none, false, true,
        [(7, bufferevent_socket_new 7), (8, bufferevent_socket_new 8)],
        []⟩).conns = some (bufferevent_socket_new 8) :=
  ⟨by decide,
   (eventcb_fatal_closes_connection BEV_EVENT_EOF 7 _ (by decide)).1,
   by
    rw [(eventcb_fatal_closes_connection BEV_EVENT_EOF 7 _
      (by decide)).2.1 8 (by decide)]
    decide⟩

/-- C9: `conn_eventcb` frees the connection for every event bitmask —
terminating or not, `BEV_EVENT_CONNECTED`, `BEV_EVENT_TIMEOUT`, even an
empty bitmask — so no bitmask value lets the connection survive the
callback. -/
theorem eventcb_frees_for_every_bitmask (events cid : Nat) (st : LoopState) :
    connLookup cid (conn_eventcb cid events st).conns = none :=
  connLookup_connFree_self cid st.conns

/-- C6: when `bufferevent_socket_new` fails inside `listener_cb`, the
failure is not skipped: `event_base_loopbreak` is requested, so `dispatch`
handles no further stimulus — the whole server stops — while no
connection is added; by contrast the per-connection `conn_eventcb` never
touches the loop-break flag, so this policy is strictly harsher. -/
theorem listener_cb_failure_stops_loop (fd : Nat) (st : LoopState) :
    (listener_cb false fd st).loopBreak = true ∧
    (listener_cb false fd st).conns = st.conns ∧
    (∀ e rest, dispatch (listener_cb false fd st) (e :: rest) =
      listener_cb false fd st) ∧
    (∀ events cid, (conn_eventcb cid events st).loopBreak = st.loopBreak) := by
  refine ⟨rfl, rfl, fun e rest => ?_, fun events cid => rfl⟩
  simp [dispatch, loopStopRequested, listener_cb]

/-- C8: the listener's bind address is TCP port 9995 on all local
interfaces (`INADDR_ANY`, i.e. address 0) with address reuse enabled and
no explicit backlog bound (`-1`), and for every successfully accepted
socket `listener_cb` installs a connection whose read, write and event
callbacks are registered and whose read and write directions are
enabled. -/
theorem listener_binds_and_registers (fd : Nat) (st : LoopState) :
    sin.port = 9995 ∧ sin.addr = 0 ∧ sin.family = AF_INET ∧
    listenerOpts.reuseable = true ∧ listenerOpts.closeOnFree = true ∧
    listenerBacklog = -1 ∧
    (∃ c : Connection,
      connLookup fd (listener_cb true fd st).conns = some c ∧
      c.fd = fd ∧ c.cbRead = true ∧ c.cbWrite = true ∧ c.cbEvent = true ∧
      c.enabledRead = true ∧ c.enabledWrite = true) := by
  refine ⟨rfl, rfl, rfl, rfl, rfl, rfl,
    ⟨bufferevent_enable (bufferevent_setcb (bufferevent_socket_new fd))
      (EV_WRITE ||| EV_READ), ?_, rfl, rfl, rfl, rfl, rfl, rfl⟩⟩
  simp [listener_cb, connLookup]

/-! ## Claim theorems about `main` and shutdown -/

/-- C4: `main` exits with status 1 — printing only the failure
diagnostic, so the loop never runs and no connection is served — when
the event base, the listener, or the signal event's creation or
registration fails; and it exits with status 0 when setup succeeds and
the event loop returns. -/
theorem main_exit_status (env : StartupEnv) (trace : List LoopEvent) :
    (env.baseOk = false →
      mainRun env trace = (1, ["Could not initialize libevent!"])) ∧
    (env.baseOk = true → env.listenerOk = false →
      mainRun env trace = (1, ["Could not create a listener!"])) ∧
    (env.baseOk = true → env.listenerOk = true →
      (env.signalNewOk = false ∨ env.signalAddOk = false) →
      mainRun env trace = (1, ["Could not create/add a signal event!"])) ∧
    (env.baseOk = true → env.listenerOk = true → env.signalNewOk = true →
      env.signalAddOk = true → (mainRun env trace).1 = 0) := by
  refine ⟨fun h1 => ?_, fun h1 h2 => ?_, fun h1 h2 h3 => ?_,
    fun h1 h2 h3 h4 => ?_⟩
  · simp [mainRun, h1]
  · simp [mainRun, h1, h2]
  · rcases h3 with h3 | h3 <;> simp [mainRun, h1, h2, h3]
  · simp [mainRun, h1, h2, h3, h4]

/-- Witness for C4: each failing construction step at a concrete
environment, and the all-successful environment. -/
theorem main_exit_status_witness :
    mainRun ⟨false, true, true, true⟩ [] =
      (1, ["Could not initialize libevent!"]) ∧
    mainRun ⟨true, false, true, true⟩ [] =
      (1, ["Could not create a listener!"]) ∧
    mainRun ⟨true, true, false, true⟩ [] =
      (1, ["Could not create/add a signal event!"]) ∧
    mainRun ⟨true, true, true, false⟩ [] =
      (1, ["Could not create/add a signal event!"]) ∧
    (mainRun ⟨true, true, true, true⟩ []).1 = 0 :=
  ⟨(main_exit_status _ _).1 rfl,
   (main_exit_status _ _).2.1 rfl rfl,
   (main_exit_status _ _).2.2.1 rfl rfl (Or.inl rfl),
   (main_exit_status _ _).2.2.1 rfl rfl (Or.inr rfl),
   (main_exit_status _ _).2.2.2 rfl rfl rfl rfl⟩

/-- C5: `signal_cb` schedules the loop exit exactly 2 time units after
the moment the interrupt is handled; while the deadline lies in the
future (and no loop break occurred) `dispatch` still hands the next
stimulus — including new connections — to its callback; once the
deadline is reached `dispatch` handles nothing further and returns; and
with a successful setup the process then exits with status 0 printing
the completion line exactly once. -/
theorem sigint_graceful_shutdown :
    (∀ st : LoopState, (signal_cb st).exitDeadline = some (st.now + 2)) ∧
    (∀ (st : LoopState) (d : Nat) (e : LoopEvent) (rest : List LoopEvent),
      st.loopBreak = false → st.exitDeadline = some d → st.now < d →
      dispatch st (e :: rest) = dispatch (loopStep st e) rest) ∧
    (∀ (st : LoopState) (d : Nat) (trace : List LoopEvent),
      st.exitDeadline = some d → d ≤ st.now → dispatch st trace = st) ∧
    (∀ (env : StartupEnv) (trace : List LoopEvent),
      env.baseOk = true → env.listenerOk = true → env.signalNewOk = true →
      env.signalAddOk = true →
      (mainRun env trace).1 = 0 ∧
        countLine "done" (mainRun env trace).2 = 1) := by
  refine ⟨fun st => rfl, fun st d e rest hb hd hlt => ?_,
    fun st d trace hd hle => ?_, fun env trace h1 h2 h3 h4 => ?_⟩
  · have hstop : loopStopRequested st = false := by
      simp [loopStopRequested, hb, hd, Nat.not_le.mpr hlt]
    simp [dispatch, hstop]
  · cases trace with
    | nil => rfl
    | cons e rest =>
      have hstop : loopStopRequested st = true := by
        simp [loopStopRequested, hd, hle]
      simp [dispatch, hstop]
  · have hout : mainRun env trace =
        (0, "Start listening the port: 9995" ::
          ((dispatch initialState trace).log ++ ["done"])) := by
      simp [mainRun, h1, h2, h3, h4]
    rw [hout]
    refine ⟨rfl, ?_⟩
    have hL : countLine "done" (dispatch initialState trace).log = 0 :=
      (dispatch_done trace initialState).trans (by decide)
    show countLine "done" (["Start listening the port: 9995"] ++
      ((dispatch initialState trace).log ++ ["done"])) = 1
    rw [countLine_append, countLine_append, hL]
    decide

/-- Witness for C5: the grace-period clauses at a concrete reactor state
and the full run at the all-successful environment with a single
interrupt. -/
theorem sigint_graceful_shutdown_witness :
    dispatch ⟨0, some 2, false, true, [], []⟩ [LoopEvent.tick] =
      dispatch (loopStep ⟨0, some 2, false, true, [], []⟩ LoopEvent.tick) [] ∧
    dispatch ⟨2, some 2, false, true, [], []⟩ [LoopEvent.tick] =
      ⟨2, some 2, false, true, [], []⟩ ∧
    (mainRun ⟨true, true, true, true⟩ [LoopEvent.interrupt]).1 = 0 ∧
    countLine "done"
      (mainRun ⟨true, true, true, true⟩ [LoopEvent.interrupt]).2 = 1 :=
  ⟨sigint_graceful_shutdown.2.1 _ 2 _ _ rfl rfl (by decide),
   sigint_graceful_shutdown.2.2.1 _ 2 _ rfl (by decide),
   (sigint_graceful_shutdown.2.2.2 _ _ rfl rfl rfl rfl).1,
   (sigint_graceful_shutdown.2.2.2 _ _ rfl rfl rfl rfl).2⟩

end EchoServer
